import Mathlib

/-!
# Verification of the gameratez server's feed/engagement core

Shallow embedding of the Express server in `server/index` (flat-file mode:
in-process arrays, plus the relational branch of `POST /api/auth/complete`).
JavaScript strings are modelled as `String`, epoch-millisecond timestamps as
`Nat` (every record created through the API carries a valid timestamp, so the
`Number.isNaN` guards on parsed dates never fire on reachable states),
`Date.now()` and the random id generator are passed in as explicit parameters,
and absent / non-string JSON fields are modelled as `Option String` with
`none` for `undefined` and `""` for the falsy empty string.
-/

namespace Gameratez

/-- JS `s.toLowerCase()` (basic-latin case mapping, as Lean's `Char.toLower`),
implemented by structural recursion over the character list so that concrete
witnesses evaluate inside the kernel. -/
def jsToLower (s : String) : String := ⟨s.data.map Char.toLower⟩

/-- JS `s.trim()`: strip leading and trailing whitespace (the ASCII whitespace
of `Char.isWhitespace`, which covers every character these handlers meet). -/
def jsTrim (s : String) : String :=
  ⟨((s.data.dropWhile Char.isWhitespace).reverse.dropWhile Char.isWhitespace).reverse⟩

/-- JS `s.trim().toLowerCase()` as used throughout the server for usernames. -/
def normUser (s : String) : String := jsToLower (jsTrim s)

/-- JS `x != null ? String(x).trim().toLowerCase() : ''` on an optional field. -/
def normOpt : Option String → String
  | none => ""
  | some s => normUser s

/-- JS `x != null ? String(x).trim() : ''` on an optional field. -/
def jsTrimOpt : Option String → String
  | none => ""
  | some s => jsTrim s

/-- JS truthiness of an optional string (`undefined` and `''` are falsy). -/
def truthy : Option String → Bool
  | none => false
  | some s => s ≠ ""

/-- JS `a || b` on two optional strings. -/
def jsOr (a b : Option String) : Option String :=
  if truthy a then a else b

/-- JS `s.includes(pat)` (substring test). -/
def jsIncludes (s pat : String) : Bool :=
  pat.data.isEmpty || s.data.tails.any (fun t => pat.data.isPrefixOf t)

/-! ## Data model (the in-memory collections of the flat-file mode) -/

/-- One option of a rate's poll (`{ id, text, votes }`). -/
structure PollOption where
  id : String
  text : String
  votes : Nat
deriving DecidableEq, Repr

/-- A rate's optional poll (`{ question, options, totalVotes }`). -/
structure PollData where
  question : String
  options : List PollOption
  totalVotes : Nat
deriving DecidableEq, Repr

/-- A rate record as stored in the `rates` array. -/
structure Rate where
  id : String
  raterName : String
  raterHandle : String
  gameName : String
  rating : Int
  body : String
  createdAt : Nat
  commentCount : Nat
  likeCount : Nat
  bookmarkCount : Nat
  repostCount : Nat
  images : List String
  poll : Option PollData
  platform : String
deriving DecidableEq, Repr

/-- A `likes` entry: `{ rateId, username }`. -/
structure Like where
  rateId : String
  username : String
deriving DecidableEq, Repr

/-- A `bookmarks` entry: `{ rateId, username }`. -/
structure Bookmark where
  rateId : String
  username : String
deriving DecidableEq, Repr

/-- A `comments` entry. -/
structure Comment where
  id : String
  rateId : String
  username : String
  displayName : String
  body : String
  createdAt : Nat
deriving DecidableEq, Repr

/-- A `follows` entry: `{ followerUsername, followeeUsername }`. -/
structure FollowEdge where
  followerUsername : String
  followeeUsername : String
deriving DecidableEq, Repr

/-- A `notifications` entry. -/
structure Notification where
  id : String
  type : String
  createdAt : Nat
  read : Bool
  forUsername : String
  actorUsername : String
  actorDisplayName : Option String
  rateId : Option String
  gameName : Option String
  body : Option String
deriving DecidableEq, Repr

/-- A `messages` entry. -/
structure Message where
  id : String
  senderUsername : String
  receiverUsername : String
  body : String
  createdAt : Nat
deriving DecidableEq, Repr

/-- A `reports` entry. -/
structure Report where
  id : String
  rateId : String
  reporterUsername : String
  reason : String
  createdAt : Nat
deriving DecidableEq, Repr

/-- A user record of the flat-file `users` map (map values in insertion order). -/
structure FileUser where
  email : String
  username : String
  displayName : String
  platform : String
  passwordHash : Option String
deriving DecidableEq, Repr

/-- The server's in-memory collections (`users`, `rates`, `follows`, `likes`,
`comments`, `notifications`, `bookmarks`, `messages`, `reports`). -/
structure Store where
  users : List FileUser
  rates : List Rate
  follows : List FollowEdge
  likes : List Like
  comments : List Comment
  notifications : List Notification
  bookmarks : List Bookmark
  messages : List Message
  reports : List Report
deriving DecidableEq, Repr

/-- The empty startup state (no data files on disk). -/
def Store.empty : Store :=
  { users := [], rates := [], follows := [], likes := [], comments := []
    notifications := [], bookmarks := [], messages := [], reports := [] }

/-! ## Engagement enrichment (`enrichRatesWithLikes`) -/

/-- A rate as returned by the API, with the derived engagement fields
(`{ ...r, likeCount, liked, commentCount, bookmarkCount, bookmarked }`). -/
structure Enriched where
  rate : Rate
  likeCount : Nat
  liked : Bool
  commentCount : Nat
  bookmarkCount : Nat
  bookmarked : Bool
deriving DecidableEq, Repr

/-- `const u = currentUsername ? String(currentUsername).trim().toLowerCase() : null`,
folding in the later `u ? … : false` guards: a viewer that is absent, empty, or
whitespace-only yields `none`. -/
def normViewer : Option String → Option String
  | none => none
  | some s =>
    if s = "" then none
    else if normUser s = "" then none
    else some (normUser s)

/-- The per-rate body of `enrichRatesWithLikes`'s `map`. -/
def enrichOne (likes : List Like) (comments : List Comment) (bookmarks : List Bookmark)
    (u : Option String) (r : Rate) : Enriched :=
  { rate := r
    likeCount := (likes.filter (fun l => l.rateId = r.id)).length
    liked := match u with
      | some v => likes.any (fun l => decide (l.rateId = r.id ∧ jsToLower l.username = v))
      | none => false
    commentCount := (comments.filter (fun c => c.rateId = r.id)).length
    bookmarkCount := (bookmarks.filter (fun b => b.rateId = r.id)).length
    bookmarked := match u with
      | some v => bookmarks.any (fun b => decide (b.rateId = r.id ∧ jsToLower b.username = v))
      | none => false }

/-- `enrichRatesWithLikes(ratesArray, currentUsername)`: the pure read-side join
computing counts and viewer flags for each rate. -/
def enrichRatesWithLikes (st : Store) (ratesArray : List Rate)
    (currentUsername : Option String) : List Enriched :=
  ratesArray.map (enrichOne st.likes st.comments st.bookmarks (normViewer currentUsername))

/-! ## Feed assembly: `GET /api/rates` and `GET /api/rates/:id` (flat-file mode) -/

/-- The query parameters of `GET /api/rates`. -/
structure RatesQuery where
  tab : Option String
  username : Option String
  raterHandle : Option String
  bookmarkedBy : Option String
  platform : Option String
deriving DecidableEq, Repr

/-- The query with no parameters supplied. -/
def RatesQuery.none' : RatesQuery :=
  { tab := none, username := none, raterHandle := none, bookmarkedBy := none, platform := none }

/-- View selection of `GET /api/rates`: following / bookmarkedBy / raterHandle /
global, in the handler's `if … else if …` order. -/
def baseList (st : Store) (q : RatesQuery) : List Rate :=
  if q.tab = some "following" ∧ truthy q.username then
    let u := normUser (q.username.getD "")
    let followingSet := (st.follows.filter (fun f => jsToLower f.followerUsername = u)).map
      (fun f => jsToLower f.followeeUsername)
    st.rates.filter (fun r => followingSet.contains (jsToLower r.raterHandle))
  else if truthy q.bookmarkedBy then
    let u := normUser (q.bookmarkedBy.getD "")
    let rateIds := (st.bookmarks.filter (fun b => jsToLower b.username = u)).map (fun b => b.rateId)
    st.rates.filter (fun r => rateIds.contains r.id)
  else if truthy q.raterHandle then
    let u := normUser (q.raterHandle.getD "")
    st.rates.filter (fun r => jsToLower r.raterHandle = u)
  else
    st.rates

/-- The optional platform filter (`?platform=ps|xbox|pc`). -/
def platformFilter (platform : Option String) (list : List Rate) : List Rate :=
  match platform with
  | none => list
  | some s =>
    if s = "" then list
    else
      let p := normUser s
      if p = "ps" ∨ p = "xbox" ∨ p = "pc" then list.filter (fun r => jsToLower r.platform = p)
      else list

/-- `GET /api/rates` (flat-file branch): select the view, apply the platform
filter, hide future-scheduled rates, then enrich with `username || bookmarkedBy`. -/
def getRates (st : Store) (now : Nat) (q : RatesQuery) : List Enriched :=
  let list := platformFilter q.platform (baseList st q)
  let list := list.filter (fun r => r.createdAt ≤ now)
  enrichRatesWithLikes st list (jsOr q.username q.bookmarkedBy)

/-- `GET /api/rates/:id` (flat-file branch): `none` models the 404 response,
returned both for an unknown id and for a future-scheduled rate. -/
def getRateById (st : Store) (now : Nat) (id : String) (username : Option String) :
    Option Enriched :=
  match st.rates.find? (fun r => r.id = id) with
  | none => none
  | some rate =>
    if now < rate.createdAt then none
    else some (enrichOne st.likes st.comments st.bookmarks (normViewer username) rate)

/-! ## `GET /api/search` (flat-file branch) -/

/-- A user entry of the search response. -/
structure SearchUser where
  username : String
  displayName : String
deriving DecidableEq, Repr

/-- `GET /api/search?q=` (flat-file branch): substring match over users
(username / display name) and visible rates (game name / body / handle),
users capped at 20 and rates at 50 (rates are capped before enrichment,
which is called with a `null` viewer). -/
def searchApi (st : Store) (now : Nat) (qRaw : Option String) :
    List SearchUser × List Enriched :=
  let q := jsTrim (qRaw.getD "")
  let qLower := jsToLower q
  if 1 ≤ q.length then
    let usersList := (st.users.filter (fun u =>
        jsIncludes (jsToLower u.username) qLower || jsIncludes (jsToLower u.displayName) qLower)).map
      (fun u => { username := jsTrim u.username, displayName := jsTrim u.displayName })
    let ratesList := st.rates.filter (fun r =>
      decide (r.createdAt ≤ now) &&
        (jsIncludes (jsToLower r.gameName) qLower || jsIncludes (jsToLower r.body) qLower ||
          jsIncludes (jsToLower r.raterHandle) qLower))
    (usersList.take 20, enrichRatesWithLikes st (ratesList.take 50) none)
  else ([], [])

/-! ## `GET /api/rates/trending` -/

/-- One row of the trending response: `{ rank, gameName, count }`. -/
structure TrendEntry where
  rank : Nat
  gameName : String
  count : Nat
deriving DecidableEq, Repr

/-- The `byGame` map update: bump the count of an existing key (keeping its
first-seen display name) or append a new key, preserving insertion order as a
JS `Map` does. Entries are `(key, displayName, count)`. -/
def bumpGame : List (String × String × Nat) → String → String → List (String × String × Nat)
  | [], key, name => [(key, name, 1)]
  | e :: rest, key, name =>
    if e.1 = key then (e.1, e.2.1, e.2.2 + 1) :: rest
    else e :: bumpGame rest key name

/-- One iteration of the `for (const r of rates)` loop of the trending handler:
skip future-scheduled rates and empty game names, else bump the game's count
under its lowercased trimmed name. -/
def trendingFold (now : Nat) (acc : List (String × String × Nat)) (r : Rate) :
    List (String × String × Nat) :=
  if now < r.createdAt then acc
  else
    let name := jsTrim r.gameName
    let key := jsToLower name
    if key = "" then acc else bumpGame acc key name

/-- `GET /api/rates/trending`: count visible rates per lowercased game name,
sort by count descending (JS `Array.prototype.sort` is stable, modelled by the
stable `List.insertionSort`), keep the top 5 and attach 1-based ranks. -/
def trendingApi (st : Store) (now : Nat) : List TrendEntry :=
  let byGame := st.rates.foldl (trendingFold now) []
  let sorted := (byGame.insertionSort (fun a b => b.2.2 ≤ a.2.2)).take 5
  sorted.enum.map (fun p => { rank := p.1 + 1, gameName := p.2.2.1, count := p.2.2.2 })

/-! ## `POST /api/rates/:id/like` (flat-file branch) -/

/-- Response of the like endpoint (`400` / `404` / `409` / `201`). -/
inductive LikeResult where
  | badRequest
  | notFound
  | conflict (likeCount : Nat)
  | created (likeCount : Nat)
deriving DecidableEq, Repr

/-- `POST /api/rates/:id/like`: reject a missing username or unknown rate,
409 on a duplicate (case-insensitive) like, else push the like and notify the
rate's author unless the liker is the author (case-insensitively) or the
author handle is empty. `now` stands for `Date.now()` and `notifId` for the
generated notification id. -/
def postLike (st : Store) (now : Nat) (notifId : String) (rateId : String)
    (username : Option String) : Store × LikeResult :=
  let u := normOpt username
  if u = "" then (st, .badRequest)
  else if ¬ st.rates.any (fun r => r.id = rateId) then (st, .notFound)
  else if st.likes.any (fun l => decide (l.rateId = rateId ∧ jsToLower l.username = u)) then
    (st, .conflict (st.likes.filter (fun l => l.rateId = rateId)).length)
  else
    let st1 : Store := { st with likes := st.likes ++ [({ rateId := rateId, username := u } : Like)] }
    let st2 :=
      match st1.rates.find? (fun r => r.id = rateId) with
      | some rate =>
        let ownerHandle := normUser rate.raterHandle
        if ownerHandle ≠ "" ∧ ownerHandle ≠ u then
          { st1 with notifications :=
              { id := notifId, type := "like", createdAt := now, read := false
                forUsername := ownerHandle, actorUsername := u
                actorDisplayName := none, rateId := some rateId
                gameName := some rate.gameName, body := none } :: st1.notifications }
        else st1
      | none => st1
    (st2, .created (st2.likes.filter (fun l => l.rateId = rateId)).length)

/-! ## `GET|POST /api/rates/:id/comments` (flat-file branch) -/

/-- Response of the comment-creation endpoint. The `created` (201) response
exists in the handler but is unreachable in flat-file mode — see
`postComment` — and is kept only to mirror the handler's response shape. -/
inductive CommentResult where
  | badRequest
  | notFound
  | created (c : Comment) (commentCount : Nat)
  | serverError
deriving DecidableEq, Repr

/-- `POST /api/rates/:id/comments` (flat-file branch): validate username and
body and push the comment — and then crash: immediately after
`comments.push(comment)` the handler calls `saveComments()`, a function the
file never defines (every other collection has a `saveX()`, comments has
none), so a `ReferenceError` is thrown and the surrounding `catch` answers
500. The author-notification block and the 201 response further down the
handler are therefore unreachable in this mode; `notifId` is retained for the
interface but no notification is ever created. -/
def postComment (st : Store) (now : Nat) (commentId notifId : String) (rateId : String)
    (username displayName body : Option String) : Store × CommentResult :=
  let u := normOpt username
  let name := match displayName with | none => "Guest" | some s => jsTrim s
  let text := jsTrimOpt body
  if u = "" then (st, .badRequest)
  else if text = "" then (st, .badRequest)
  else if ¬ st.rates.any (fun r => r.id = rateId) then (st, .notFound)
  else
    let name1 := if name = "" then "Guest" else name
    let comment : Comment :=
      { id := commentId, rateId := rateId, username := u, displayName := name1
        body := text, createdAt := now }
    ({ st with comments := st.comments ++ [comment] }, .serverError)

/-- `GET /api/rates/:id/comments`: `none` models the 404 for an unknown rate;
otherwise the rate's comments sorted oldest-first by creation timestamp
(JS stable in-place `sort`, modelled by the stable `List.insertionSort`). -/
def getComments (st : Store) (rateId : String) : Option (List Comment) :=
  if ¬ st.rates.any (fun r => r.id = rateId) then none
  else
    some ((st.comments.filter (fun c => c.rateId = rateId)).insertionSort
      (fun a b => a.createdAt ≤ b.createdAt))

/-! ## `DELETE /api/admin/rates/:id` (flat-file branch) -/

/-- Response of the admin delete endpoint (`401` / `400` / `404` / `500`).
The `success` (200) response exists in the handler but is unreachable in
flat-file mode — see `adminDeleteRate` — and is kept only to mirror the
handler's response shape. -/
inductive AdminDeleteResult where
  | unauthorized
  | badRequest
  | notFound
  | success
  | serverError
deriving DecidableEq, Repr

/-- `DELETE /api/admin/rates/:id` (flat-file branch): gate on the
`x-admin-token` header matching the configured secret, then remove the rate
and every like, bookmark, comment, report and notification carrying its id
from the in-memory collections — and then crash: after `saveRates()`,
`saveLikes()` and `saveBookmarks()` the handler calls `saveComments()`, a
function the file never defines, so a `ReferenceError` is thrown and the
surrounding `catch` answers 500. The six collection reassignments all precede
the save calls, so the cascade has fully mutated the in-memory state by the
time of the throw, but the `{ success: true }` response is unreachable in
this mode. -/
def adminDeleteRate (st : Store) (token expected : String) (rateId : String) :
    Store × AdminDeleteResult :=
  if jsTrim expected = "" ∨ jsTrim token ≠ jsTrim expected then (st, .unauthorized)
  else if rateId = "" then (st, .badRequest)
  else if ¬ st.rates.any (fun r => r.id = rateId) then (st, .notFound)
  else
    ({ st with
        rates := st.rates.filter (fun r => r.id ≠ rateId)
        likes := st.likes.filter (fun l => l.rateId ≠ rateId)
        bookmarks := st.bookmarks.filter (fun b => b.rateId ≠ rateId)
        comments := st.comments.filter (fun c => c.rateId ≠ rateId)
        reports := st.reports.filter (fun rp => rp.rateId ≠ rateId)
        notifications := st.notifications.filter (fun n => n.rateId ≠ some rateId) },
      .serverError)

/-! ## `POST /api/messages` (flat-file branch) -/

/-- Response of the message-creation endpoint. -/
inductive MessageResult where
  | badRequest (msg : String)
  | created (m : Message)
deriving DecidableEq, Repr

/-- `POST /api/messages`: reject missing participants, an empty body, and
self-messaging (after trim/lowercase normalization), else append the message. -/
def postMessage (st : Store) (now : Nat) (msgId : String)
    (senderUsername receiverUsername body : Option String) : Store × MessageResult :=
  let sender := normOpt senderUsername
  let receiver := normOpt receiverUsername
  let text := jsTrimOpt body
  if sender = "" ∨ receiver = "" then
    (st, .badRequest "senderUsername and receiverUsername required")
  else if text = "" then (st, .badRequest "body required")
  else if sender = receiver then (st, .badRequest "Cannot message yourself")
  else
    let m : Message :=
      { id := msgId, senderUsername := sender, receiverUsername := receiver
        body := text, createdAt := now }
    ({ st with messages := st.messages ++ [m] }, .created m)

/-! ## `POST /api/rates` (flat-file branch) -/

/-- The request body of `POST /api/rates` (the poll is the raw question plus
the option text fields; `scheduledAt` is the parsed schedule instant, `none`
for absent or unparseable). -/
structure RateInput where
  gameName : Option String
  rating : Option Int
  body : Option String
  raterName : Option String
  raterHandle : Option String
  images : List String
  poll : Option (String × List String)
  scheduledAt : Option Nat
  platform : Option String
deriving DecidableEq, Repr

/-- Response of the rate-creation endpoint. -/
inductive PostRateResult where
  | badRequest (msg : String)
  | created (r : Rate)
deriving DecidableEq, Repr

/-- `POST /api/rates`: validate game name, rating range and body; a
`scheduledAt` strictly in the future becomes the stored `createdAt`; the new
rate is `unshift`ed to the front of the `rates` array. `wallNow` stands for
`Date.now()` and `rid` for the generated rate id. -/
def postRate (st : Store) (wallNow : Nat) (rid : String) (inp : RateInput) :
    Store × PostRateResult :=
  match inp.gameName with
  | none => (st, .badRequest "Game name required")
  | some g =>
    if jsTrim g = "" then (st, .badRequest "Game name required")
    else match inp.rating with
    | none => (st, .badRequest "Rating must be a number between 1 and 10")
    | some rating =>
      if rating < 1 ∨ 10 < rating then (st, .badRequest "Rating must be a number between 1 and 10")
      else match inp.body with
      | none => (st, .badRequest "Review text required")
      | some b =>
        if jsTrim b = "" then (st, .badRequest "Review text required")
        else
          let name := if jsTrim (inp.raterName.getD "") = "" then "Guest" else jsTrim (inp.raterName.getD "")
          let handle := if jsTrim (inp.raterHandle.getD "") = "" then "guest" else jsTrim (inp.raterHandle.getD "")
          let normalizedPlatform := match inp.platform with
            | some p => if p = "ps" ∨ p = "xbox" ∨ p = "pc" then p else ""
            | none => ""
          let createdAt := match inp.scheduledAt with
            | some d => if wallNow < d then d else wallNow
            | none => wallNow
          let imageUrls := (inp.images.map jsTrim).filter (fun u => 0 < u.length)
          let pollData := match inp.poll with
            | some (qRaw, optsRaw) =>
              let question := jsTrim qRaw
              let optionTexts := (optsRaw.map jsTrim).filter (fun t => 0 < t.length)
              if question ≠ "" ∧ 2 ≤ optionTexts.length ∧ optionTexts.length ≤ 4 then
                some { question := question
                       options := optionTexts.enum.map (fun p =>
                         { id := "opt-" ++ toString (p.1 + 1), text := p.2, votes := 0 })
                       totalVotes := 0 }
              else none
            | none => none
          let rate : Rate :=
            { id := rid, raterName := name, raterHandle := handle, gameName := jsTrim g
              rating := min 10 (max 1 rating), body := jsTrim b, createdAt := createdAt
              commentCount := 0, likeCount := 0, bookmarkCount := 0, repostCount := 0
              images := imageUrls, poll := pollData, platform := normalizedPlatform }
          ({ st with rates := rate :: st.rates }, .created rate)

/-! ## Notification read endpoints (flat-file branch) -/

/-- `GET /api/notifications?username=`: the user's notifications in stored order. -/
def notificationsFor (st : Store) (username : String) : List Notification :=
  st.notifications.filter (fun n => jsToLower n.forUsername = normUser username)

/-- `GET /api/notifications/unread-count?username=`. -/
def unreadCountFor (st : Store) (username : String) : Nat :=
  (st.notifications.filter (fun n =>
    decide (jsToLower n.forUsername = normUser username) && !n.read)).length

/-! ## Relational mode: `POST /api/auth/complete`

The relational branch issues simple single-row SQL statements against the
`users` table; the table is modelled as a list of rows and each query by the
corresponding list operation. The `completeTokens` map lives in process memory
in both modes. -/

/-- A row of the relational `users` table (the columns this flow touches). -/
structure DbUser where
  id : String
  email : String
  username : String
  displayName : String
  bio : String
  favoriteGameKinds : List String
  feedPreference : String
  platform : String
  passwordHash : Option String
  createdAt : Nat
deriving DecidableEq, Repr

/-- A `completeTokens` value: `{ email, passwordHash, expiresAt }`. -/
structure TokenData where
  email : String
  passwordHash : String
  expiresAt : Nat
deriving DecidableEq, Repr

/-- The state touched by signup completion in relational mode. -/
structure AuthState where
  completeTokens : List (String × TokenData)
  dbUsers : List DbUser
deriving DecidableEq, Repr

/-- `completeTokens.get(tok)`. -/
def lookupToken (m : List (String × TokenData)) (k : String) : Option TokenData :=
  (m.find? (fun p => p.1 = k)).map (fun p => p.2)

/-- `completeTokens.delete(tok)`. -/
def deleteToken (m : List (String × TokenData)) (k : String) : List (String × TokenData) :=
  m.filter (fun p => p.1 ≠ k)

/-- The completion endpoint's handle normalization:
`String(username).trim().replace(/^@/, '')`. -/
def handleOf (un : String) : String :=
  let t := jsTrim un
  match t.data with
  | '@' :: rest => ⟨rest⟩
  | _ => t

/-- Response of the completion endpoint (`400` / `409` / `200`). -/
inductive CompleteResult where
  | badRequest (msg : String)
  | conflict (msg : String)
  | ok (username : String)
deriving DecidableEq, Repr

/-- `POST /api/auth/complete`, relational branch: look up and expire the
token, reject an already-completed email or a taken username (both checked
against the `users` table), else insert the user row; the token is deleted on
expiry, on either conflict, and on success. `now` stands for `Date.now()`,
`newUserId` and `createdAt` for the generated profile id and timestamp. -/
def authCompleteDb (st : AuthState) (now : Nat) (newUserId : String) (createdAt : Nat)
    (completeToken displayName username : Option String) (favoriteGameKinds : List String)
    (feedPreference platform : Option String) : AuthState × CompleteResult :=
  if ¬ truthy completeToken ∨ ¬ truthy displayName ∨ ¬ truthy username then
    (st, .badRequest "completeToken, displayName, and username required")
  else
    let tok := completeToken.getD ""
    match lookupToken st.completeTokens tok with
    | none => (st, .badRequest "Invalid or expired session")
    | some data =>
      if data.expiresAt < now then
        ({ st with completeTokens := deleteToken st.completeTokens tok },
          .badRequest "Session expired. Please start again.")
      else if st.dbUsers.any (fun u => u.email = data.email) then
        ({ st with completeTokens := deleteToken st.completeTokens tok },
          .conflict "Account already completed")
      else
        let handle := handleOf (username.getD "")
        let normalizedPlatform := match platform with
          | some p => if p = "ps" ∨ p = "xbox" ∨ p = "pc" then p else ""
          | none => ""
        let handleLower := normUser handle
        if handleLower = "" then (st, .badRequest "username required")
        else if st.dbUsers.any (fun u => jsToLower u.username = handleLower) then
          ({ st with completeTokens := deleteToken st.completeTokens tok },
            .conflict "Username is already taken")
        else
          let newUser : DbUser :=
            { id := newUserId, email := data.email, username := handle
              displayName := jsTrim (displayName.getD ""), bio := ""
              favoriteGameKinds := favoriteGameKinds
              feedPreference := feedPreference.getD "all"
              platform := normalizedPlatform
              passwordHash := some data.passwordHash, createdAt := createdAt }
          ({ st with
              dbUsers := st.dbUsers ++ [newUser]
              completeTokens := deleteToken st.completeTokens tok },
            .ok handle)

/-! ## Concrete fixtures used by counterexamples and witnesses -/

/-- A plain visible rate by `bob`. -/
def rate0 : Rate :=
  { id := "r1", raterName := "Bob", raterHandle := "bob", gameName := "Zelda"
    rating := 8, body := "good game", createdAt := 0, commentCount := 0, likeCount := 0
    bookmarkCount := 0, repostCount := 0, images := [], poll := none, platform := "" }

/-- A store holding just `rate0`. -/
def store2 : Store := { Store.empty with rates := [rate0] }

/-- An auth state with one live token and one account whose username is `Alice`. -/
def authState1 : AuthState :=
  { completeTokens := [("tok", { email := "new@example.com", passwordHash := "h", expiresAt := 1000 })]
    dbUsers := [{ id := "u1", email := "alice@example.com", username := "Alice"
                  displayName := "Alice", bio := "", favoriteGameKinds := []
                  feedPreference := "all", platform := "", passwordHash := some "ph"
                  createdAt := 0 }] }

/-- A store whose only rate is scheduled for the future (createdAt 100). -/
def store3 : Store := { Store.empty with rates := [{ rate0 with createdAt := 100 }] }

/-- Input of a rate scheduled for time 10. -/
def rateInput1 : RateInput :=
  { gameName := some "Halo", rating := some 8, body := some "fun", raterName := some "Ann"
    raterHandle := some "ann", images := [], poll := none, scheduledAt := some 10
    platform := none }

/-- Input of an unscheduled rate. -/
def rateInput2 : RateInput := { rateInput1 with gameName := some "Doom", scheduledAt := none }

/-- The store reached by creating a scheduled rate (wall time 1, createdAt 10) and
then a normal rate (wall time 2, createdAt 2). -/
def store4 : Store := (postRate (postRate Store.empty 1 "r1" rateInput1).1 2 "r2" rateInput2).1

/-- Rates over games A (3, lowercase variants included for B), B (5), C (1). -/
def store6 : Store :=
  { Store.empty with rates :=
      [{ rate0 with id := "t1", gameName := "B" }, { rate0 with id := "t2", gameName := "A" }
       , { rate0 with id := "t3", gameName := "b" }, { rate0 with id := "t4", gameName := "A" }
       , { rate0 with id := "t5", gameName := "C" }, { rate0 with id := "t6", gameName := "B" }
       , { rate0 with id := "t7", gameName := "b" }, { rate0 with id := "t8", gameName := "A" }
       , { rate0 with id := "t9", gameName := "B" }] }

/-- `store2` plus one like on `r1` stored with uppercase username. -/
def store8 : Store :=
  { Store.empty with
    rates := [rate0]
    likes := [{ rateId := "r1", username := "ALICE" }] }

/-- Two rates with engagement rows on each, for the cascade-delete witness. -/
def store9 : Store :=
  { Store.empty with
    rates := [rate0, { rate0 with id := "r2" }]
    likes := [{ rateId := "r1", username := "alice" }, { rateId := "r2", username := "alice" }]
    bookmarks := [{ rateId := "r1", username := "carol" }, { rateId := "r2", username := "dave" }]
    comments := [{ id := "c1", rateId := "r1", username := "alice", displayName := "Alice"
                   body := "nice", createdAt := 3 }]
    reports := [{ id := "p1", rateId := "r1", reporterUsername := "eve", reason := "spam"
                  createdAt := 4 }]
    notifications := [{ id := "n1", type := "like", createdAt := 5, read := false
                        forUsername := "bob", actorUsername := "alice", actorDisplayName := none
                        rateId := some "r1", gameName := some "Zelda", body := none }
                      , { id := "n2", type := "follow", createdAt := 6, read := false
                          forUsername := "bob", actorUsername := "carol", actorDisplayName := none
                          rateId := none, gameName := none, body := none }] }

/-! ## Helper lemmas -/

/-- `Char.toLower` is idempotent (it only maps `A`–`Z` down by 32). -/
theorem char_toLower_idem (c : Char) : c.toLower.toLower = c.toLower := by
  unfold Char.toLower
  by_cases h : c.toNat ≥ 65 ∧ c.toNat ≤ 90
  · rw [if_pos h]
    have hv : (c.toNat + 32).isValidChar := Or.inl (by omega)
    have ht : (Char.ofNat (c.toNat + 32)).toNat = c.toNat + 32 := by
      rw [Char.ofNat, dif_pos hv]
      simp [Char.ofNatAux, Char.toNat, UInt32.toNat]
    rw [if_neg]
    omega
  · rw [if_neg h, if_neg h]

/-- `jsToLower` is idempotent. -/
theorem jsToLower_idem (s : String) : jsToLower (jsToLower s) = jsToLower s := by
  simp only [jsToLower, List.map_map]
  exact congrArg _ (List.map_congr_left (fun c _ => char_toLower_idem c))

/-- `normUser` output is already lowercase. -/
theorem jsToLower_normUser (s : String) : jsToLower (normUser s) = normUser s :=
  jsToLower_idem (jsTrim s)

/-- A deleted token can no longer be looked up. -/
theorem lookupToken_deleteToken (m : List (String × TokenData)) (k : String) :
    lookupToken (deleteToken m k) k = none := by
  induction m with
  | nil => rfl
  | cons p rest ih =>
    by_cases h : p.1 = k
    · simp [deleteToken, lookupToken, h]
    · simp [deleteToken, lookupToken, h]

/-! ## Claim theorems -/

/-- C8: every element of `enrichRatesWithLikes(ratesArray, viewer)` carries a rate
from the input, `likeCount` is the number of Like rows with that rate's id,
`liked` holds exactly when the (normalized) viewer is present and has a Like
row for that id (matching usernames case-insensitively, the data model's
username identity), and is false whenever no viewer is given; `commentCount`,
`bookmarkCount` and `bookmarked` satisfy the same pattern over the comments and
bookmarks collections. Enrichment is a pure function of the store (it returns a
value and touches no collection), so it mutates nothing. -/
theorem C8_enrichment (st : Store) (ratesArray : List Rate) (viewer : Option String)
    (e : Enriched) (he : e ∈ enrichRatesWithLikes st ratesArray viewer) :
    e.rate ∈ ratesArray
    ∧ e.likeCount = st.likes.countP (fun l => decide (l.rateId = e.rate.id))
    ∧ (e.liked = true ↔ ∃ v, normViewer viewer = some v ∧
        ∃ l ∈ st.likes, l.rateId = e.rate.id ∧ jsToLower l.username = v)
    ∧ (viewer = none → e.liked = false)
    ∧ e.commentCount = st.comments.countP (fun c => decide (c.rateId = e.rate.id))
    ∧ e.bookmarkCount = st.bookmarks.countP (fun b => decide (b.rateId = e.rate.id))
    ∧ (e.bookmarked = true ↔ ∃ v, normViewer viewer = some v ∧
        ∃ b ∈ st.bookmarks, b.rateId = e.rate.id ∧ jsToLower b.username = v) := by
  obtain ⟨r, hr, rfl⟩ := List.mem_map.mp he
  refine ⟨hr, ?_, ?_, ?_, ?_, ?_, ?_⟩
  · simp [enrichOne, List.countP_eq_length_filter]
  · cases hv : normViewer viewer with
    | none => simp [enrichOne, hv]
    | some v =>
      simp only [enrichOne, hv, List.any_eq_true, decide_eq_true_eq]
      constructor
      · rintro ⟨l, hl, h1, h2⟩
        exact ⟨v, rfl, l, hl, h1, h2⟩
      · rintro ⟨w, hw, l, hl, h1, h2⟩
        obtain rfl : v = w := by simpa using hw
        exact ⟨l, hl, h1, h2⟩
  · rintro rfl
    simp [enrichOne, normViewer]
  · simp [enrichOne, List.countP_eq_length_filter]
  · simp [enrichOne, List.countP_eq_length_filter]
  · cases hv : normViewer viewer with
    | none => simp [enrichOne, hv]
    | some v =>
      simp only [enrichOne, hv, List.any_eq_true, decide_eq_true_eq]
      constructor
      · rintro ⟨b, hb, h1, h2⟩
        exact ⟨v, rfl, b, hb, h1, h2⟩
      · rintro ⟨w, hw, b, hb, h1, h2⟩
        obtain rfl : v = w := by simpa using hw
        exact ⟨b, hb, h1, h2⟩

/-- Witness for C8 on `store8` with viewer `" Alice "`. -/
theorem C8_enrichment_witness :
    (enrichRatesWithLikes store8 store8.rates (some " Alice ")).length = 1
    ∧ ∀ e ∈ enrichRatesWithLikes store8 store8.rates (some " Alice "),
        e.likeCount = store8.likes.countP (fun l => decide (l.rateId = e.rate.id))
        ∧ (e.liked = true ↔ ∃ v, normViewer (some " Alice ") = some v ∧
            ∃ l ∈ store8.likes, l.rateId = e.rate.id ∧ jsToLower l.username = v) := by
  refine ⟨by decide, fun e he => ?_⟩
  obtain ⟨_, h2, h3, _⟩ := C8_enrichment store8 store8.rates (some " Alice ") e he
  exact ⟨h2, h3⟩

/-- C2: `GET /api/rates` never returns a rate whose `createdAt` is still in the
future, under any combination of query filters; `GET /api/rates/:id` answers
404 while the rate's `createdAt` is in the future; and once `now` is at or past
`createdAt`, the unfiltered list includes the rate and the by-id lookup returns
it. Both handlers are embedded as pure functions of the store, so neither
causes any state change. -/
theorem C2_visibility (st : Store) (now : Nat) (q : RatesQuery) (id : String)
    (uname : Option String) (r : Rate) :
    (∀ e ∈ getRates st now q, e.rate.createdAt ≤ now)
    ∧ ((∀ x ∈ st.rates, x.id = id → now < x.createdAt) → getRateById st now id uname = none)
    ∧ (r ∈ st.rates → r.createdAt ≤ now →
        enrichOne st.likes st.comments st.bookmarks none r ∈ getRates st now RatesQuery.none')
    ∧ (st.rates.find? (fun x => x.id = id) = some r → r.createdAt ≤ now →
        getRateById st now id uname =
          some (enrichOne st.likes st.comments st.bookmarks (normViewer uname) r)) := by
  refine ⟨?_, ?_, ?_, ?_⟩
  · intro e he
    simp only [getRates, enrichRatesWithLikes, List.mem_map] at he
    obtain ⟨x, hx, rfl⟩ := he
    exact (List.mem_filter.mp hx).2 |> of_decide_eq_true
  · intro h
    unfold getRateById
    cases hf : st.rates.find? (fun x => x.id = id) with
    | none => rfl
    | some x =>
      have hmem := List.mem_of_find?_eq_some hf
      have hid : x.id = id := by simpa using List.find?_some hf
      simp [h x hmem hid]
  · intro hr hle
    simp only [getRates, RatesQuery.none', enrichRatesWithLikes, baseList, platformFilter,
      truthy, jsOr]
    simp only [List.mem_map]
    exact ⟨r, List.mem_filter.mpr ⟨hr, decide_eq_true hle⟩, rfl⟩
  · intro hf hle
    unfold getRateById
    rw [hf]
    simp [Nat.not_lt.mpr hle]

/-- Witness for C2 on `store2` (its rate is visible at time 0) and `store3`
(its rate is scheduled for time 100, hence hidden at time 50 and visible at 100). -/
theorem C2_visibility_witness :
    getRateById store3 50 "r1" none = none
    ∧ enrichOne store2.likes store2.comments store2.bookmarks none rate0 ∈
        getRates store2 0 RatesQuery.none'
    ∧ getRateById store2 0 "r1" none =
        some (enrichOne store2.likes store2.comments store2.bookmarks (normViewer none) rate0) := by
  refine ⟨?_, ?_, ?_⟩
  · exact (C2_visibility store3 50 RatesQuery.none' "r1" none rate0).2.1 (by decide)
  · exact (C2_visibility store2 0 RatesQuery.none' "r1" none rate0).2.2.1 (by decide) (by decide)
  · exact (C2_visibility store2 0 RatesQuery.none' "r1" none rate0).2.2.2 (by decide) (by decide)

/-- C1 counterexample: in relational mode, completing with the valid, unexpired
token `"tok"` and the already-taken username `"alice"` answers 409, but the
`completeTokens` entry IS consumed (the lookup afterwards yields `none`), and a
subsequent completion attempt with the same token and the fresh username
`"dana"` fails with the invalid-session 400 instead of succeeding — refuting
the claim that the token survives the conflict. -/
theorem C1_counterexample :
    (authCompleteDb authState1 0 "u2" 0 (some "tok") (some "Dana") (some "alice") [] none none).2
        = .conflict "Username is already taken"
    ∧ lookupToken (authCompleteDb authState1 0 "u2" 0 (some "tok") (some "Dana")
        (some "alice") [] none none).1.completeTokens "tok" = none
    ∧ (authCompleteDb (authCompleteDb authState1 0 "u2" 0 (some "tok") (some "Dana")
          (some "alice") [] none none).1
        5 "u3" 5 (some "tok") (some "Dana") (some "dana") [] none none).2
        = .badRequest "Invalid or expired session" := by
  refine ⟨by decide, by decide, by decide⟩

/-- C1 (amended): in relational-store mode, completion with a valid, unexpired
token but a case-insensitively taken username rejects with a 409 conflict and
no user row is inserted, but the token IS consumed: the `completeTokens` entry
is deleted, so a subsequent completion attempt with the same token — fresh
username or not — fails with the invalid-session 400; the user must restart
signup. -/
theorem C1_taken_username_consumes_token (st : AuthState) (now now2 : Nat)
    (uid uid2 : String) (cAt cAt2 : Nat) (tok dn un dn2 un2 : String)
    (fav fav2 : List String) (fp pf fp2 pf2 : Option String) (data : TokenData)
    (htok : tok ≠ "") (hdn : dn ≠ "") (hun : un ≠ "")
    (hdn2 : dn2 ≠ "") (hun2 : un2 ≠ "")
    (hlook : lookupToken st.completeTokens tok = some data)
    (hexp : now ≤ data.expiresAt)
    (hemail : ∀ u ∈ st.dbUsers, u.email ≠ data.email)
    (hnonempty : normUser (handleOf un) ≠ "")
    (htaken : ∃ u ∈ st.dbUsers, jsToLower u.username = normUser (handleOf un)) :
    (authCompleteDb st now uid cAt (some tok) (some dn) (some un) fav fp pf).2
        = .conflict "Username is already taken"
    ∧ (authCompleteDb st now uid cAt (some tok) (some dn) (some un) fav fp pf).1.dbUsers
        = st.dbUsers
    ∧ (authCompleteDb st now uid cAt (some tok) (some dn) (some un) fav fp pf).1.completeTokens
        = deleteToken st.completeTokens tok
    ∧ lookupToken (authCompleteDb st now uid cAt (some tok) (some dn)
        (some un) fav fp pf).1.completeTokens tok = none
    ∧ (authCompleteDb (authCompleteDb st now uid cAt (some tok) (some dn) (some un) fav fp pf).1
        now2 uid2 cAt2 (some tok) (some dn2) (some un2) fav2 fp2 pf2).2
        = .badRequest "Invalid or expired session" := by
  have hany : st.dbUsers.any (fun u => u.email = data.email) = false := by
    simp only [List.any_eq_false, decide_eq_true_eq]
    exact hemail
  have htak : st.dbUsers.any (fun u => jsToLower u.username = normUser (handleOf un)) = true := by
    simp only [List.any_eq_true, decide_eq_true_eq]
    obtain ⟨u, hu, hequ⟩ := htaken
    exact ⟨u, hu, hequ⟩
  have hres : authCompleteDb st now uid cAt (some tok) (some dn) (some un) fav fp pf
      = ({ st with completeTokens := deleteToken st.completeTokens tok },
          .conflict "Username is already taken") := by
    unfold authCompleteDb
    rw [if_neg (by simp [truthy, htok, hdn, hun])]
    simp only [Option.getD_some, hlook]
    rw [if_neg (by omega)]
    simp only [hany, Bool.false_eq_true, if_false]
    simp [hnonempty, htak]
  refine ⟨by rw [hres], by rw [hres], by rw [hres], ?_, ?_⟩
  · rw [hres]
    exact lookupToken_deleteToken st.completeTokens tok
  · rw [hres]
    unfold authCompleteDb
    rw [if_neg (by simp [truthy, htok, hdn2, hun2])]
    simp [lookupToken_deleteToken st.completeTokens tok]

/-- Witness for the amended C1 on `authState1` with the taken username `"alice"`. -/
theorem C1_taken_username_witness :
    (authCompleteDb authState1 0 "u2" 0 (some "tok") (some "Dana") (some "alice") [] none none).1.dbUsers
        = authState1.dbUsers
    ∧ (authCompleteDb authState1 0 "u2" 0 (some "tok") (some "Dana") (some "alice") [] none none).1.completeTokens
        = deleteToken authState1.completeTokens "tok" := by
  have h := C1_taken_username_consumes_token authState1 0 5 "u2" "u3" 0 5 "tok" "Dana" "alice"
    "Dana" "dana" [] [] none none none none
    { email := "new@example.com", passwordHash := "h", expiresAt := 1000 }
    (by decide) (by decide) (by decide) (by decide) (by decide) (by decide) (by decide)
    (by decide) (by decide) (by decide)
  exact ⟨h.2.1, h.2.2.1⟩

/-- The trending fold ignores rates whose `createdAt` is in the future. -/
theorem foldl_trendingFold_filter (now : Nat) :
    ∀ (l : List Rate) (acc : List (String × String × Nat)),
      l.foldl (trendingFold now) acc
        = (l.filter (fun r => r.createdAt ≤ now)).foldl (trendingFold now) acc := by
  intro l
  induction l with
  | nil => intro acc; rfl
  | cons r t ih =>
    intro acc
    by_cases h : r.createdAt ≤ now
    · simp only [List.foldl_cons, List.filter_cons, decide_eq_true h, if_true]
      exact ih _
    · have hlt : now < r.createdAt := Nat.lt_of_not_le (fun hc => h hc)
      simp only [List.foldl_cons, List.filter_cons, decide_eq_false h, if_false,
        trendingFold, if_pos hlt]
      exact ih _

/-- C3 counterexample: a rate for game `"Zelda"` scheduled at time 100 is, at
time 50, counted by neither trending (empty result) nor returned by search for
the matching query `"zelda"` — refuting the claim that these two views skip
the visibility filter. At time 100 both views do return it, confirming that
the visibility filter alone excluded it. -/
theorem C3_counterexample :
    trendingApi store3 50 = []
    ∧ (searchApi store3 50 (some "zelda")).2 = []
    ∧ jsIncludes (jsToLower "Zelda") "zelda" = true
    ∧ trendingApi store3 100 = [{ rank := 1, gameName := "Zelda", count := 1 }]
    ∧ (searchApi store3 100 (some "zelda")).2.length = 1 := by
  exact ⟨by decide, by decide, by decide, by decide, by decide⟩

/-- C3 (amended): trending and search DO apply the visibility filter, exactly
like the other views: the trending counts are computed from visible rates only
(the result is unchanged if future-scheduled rates are dropped from the store
first), and every rate returned by search has `createdAt ≤ now`. -/
theorem C3_trending_search_visibility (st : Store) (now : Nat) (q : Option String) :
    trendingApi st now =
      trendingApi { st with rates := st.rates.filter (fun r => r.createdAt ≤ now) } now
    ∧ (∀ e ∈ (searchApi st now q).2, e.rate.createdAt ≤ now) := by
  constructor
  · unfold trendingApi
    rw [foldl_trendingFold_filter]
  · intro e he
    unfold searchApi at he
    by_cases hq : 1 ≤ (jsTrim (q.getD "")).length
    · rw [if_pos hq] at he
      simp only [enrichRatesWithLikes, List.mem_map] at he
      obtain ⟨x, hx, rfl⟩ := he
      have hx' := List.mem_filter.mp (List.take_subset 50 _ hx)
      have := hx'.2
      simp only [Bool.and_eq_true, decide_eq_true_eq] at this
      exact this.1
    · rw [if_neg hq] at he
      simp at he

/-- Witness for the amended C3: on `store3` at time 50 the trending result
equals the trending result of the visible-only store, and the one rate that
search returns at time 100 for `"zelda"` is indeed visible then. -/
theorem C3_trending_search_visibility_witness :
    trendingApi store3 50 =
      trendingApi { store3 with rates := store3.rates.filter (fun r => r.createdAt ≤ 50) } 50
    ∧ (enrichOne store3.likes store3.comments store3.bookmarks none
        { rate0 with createdAt := 100 }).rate.createdAt ≤ 100 := by
  refine ⟨(C3_trending_search_visibility store3 50 (some "zelda")).1, ?_⟩
  exact (C3_trending_search_visibility store3 100 (some "zelda")).2 _ (by decide)

/-- Every view selected by `GET /api/rates` is a sublist of the stored array. -/
theorem baseList_sublist (st : Store) (q : RatesQuery) : List.Sublist (baseList st q) st.rates := by
  unfold baseList
  repeat' split
  all_goals first
    | exact List.filter_sublist _
    | exact List.Sublist.refl _

/-- The platform filter yields a sublist. -/
theorem platformFilter_sublist (p : Option String) (l : List Rate) :
    List.Sublist (platformFilter p l) l := by
  unfold platformFilter
  cases p with
  | none => exact List.Sublist.refl l
  | some s =>
    show List.Sublist (if s = "" then l
      else if normUser s = "ps" ∨ normUser s = "xbox" ∨ normUser s = "pc"
        then l.filter (fun r => jsToLower r.platform = normUser s) else l) l
    split
    · exact List.Sublist.refl l
    · split
      · exact List.filter_sublist _
      · exact List.Sublist.refl l

/-- C4 counterexample: starting from the empty store, creating a rate scheduled
for time 10 (at wall time 1) and then a normal rate (at wall time 2,
`createdAt` 2) produces — via the creation endpoint itself, so the state is
reachable — a store whose unfiltered list view at time 10 returns creation
timestamps `[2, 10]`: not newest-first by creation timestamp. -/
theorem C4_counterexample :
    store4.rates.map Rate.id = ["r2", "r1"]
    ∧ (getRates store4 10 RatesQuery.none').map (fun e => e.rate.createdAt) = [2, 10]
    ∧ ¬ List.Pairwise (fun a b : Enriched => b.rate.createdAt ≤ a.rate.createdAt)
        (getRates store4 10 RatesQuery.none') := by
  refine ⟨by decide, by decide, ?_⟩
  intro h
  have hmap : List.Pairwise (fun a b : Nat => b ≤ a)
      ((getRates store4 10 RatesQuery.none').map (fun e => e.rate.createdAt)) := by
    rw [List.pairwise_map]
    exact h
  rw [show (getRates store4 10 RatesQuery.none').map (fun e => e.rate.createdAt) = [2, 10]
    from by decide] at hmap
  have := List.rel_of_pairwise_cons hmap (List.mem_singleton.mpr rfl)
  omega

/-- C4 (amended): the flat-file list views return rates in stored order (most
recent insertion first) — which is newest-first by creation timestamp exactly
when the stored array is sorted that way, i.e. when no future-scheduled rate
was created before a later-created rate; under that hypothesis every list view
(global, following, by-rater, bookmarked, with any platform filter) is sorted
newest-first, and comments are always sorted oldest-first. -/
theorem C4_ordering (st : Store) (now : Nat) (q : RatesQuery) (rateId : String)
    (l : List Comment)
    (hsorted : List.Pairwise (fun a b : Rate => b.createdAt ≤ a.createdAt) st.rates) :
    List.Pairwise (fun a b : Enriched => b.rate.createdAt ≤ a.rate.createdAt)
      (getRates st now q)
    ∧ (getComments st rateId = some l →
        List.Pairwise (fun a b : Comment => a.createdAt ≤ b.createdAt) l) := by
  constructor
  · have hsub : List.Sublist ((platformFilter q.platform (baseList st q)).filter
        (fun r => r.createdAt ≤ now)) st.rates :=
      ((List.filter_sublist _).trans (platformFilter_sublist _ _)).trans (baseList_sublist st q)
    have hp := hsorted.sublist hsub
    unfold getRates enrichRatesWithLikes
    rw [List.pairwise_map]
    exact hp
  · intro hl
    unfold getComments at hl
    split at hl
    · exact absurd hl (by simp)
    · haveI : IsTotal Comment (fun a b => a.createdAt ≤ b.createdAt) :=
        ⟨fun a b => Nat.le_total _ _⟩
      haveI : IsTrans Comment (fun a b => a.createdAt ≤ b.createdAt) :=
        ⟨fun _ _ _ => Nat.le_trans⟩
      obtain rfl : (st.comments.filter (fun c => c.rateId = rateId)).insertionSort
          (fun a b => a.createdAt ≤ b.createdAt) = l := by
        simpa using hl
      exact List.sorted_insertionSort _ _

/-- Witness for the amended C4: `store2`'s single-rate array is trivially
sorted, so its list view is sorted, and the comments of `r1` in a two-comment
store come back oldest-first. -/
theorem C4_ordering_witness :
    List.Pairwise (fun a b : Enriched => b.rate.createdAt ≤ a.rate.createdAt)
      (getRates store2 0 RatesQuery.none')
    ∧ List.Pairwise (fun a b : Comment => a.createdAt ≤ b.createdAt)
        ((store2.comments.filter (fun c => c.rateId = "r1")).insertionSort
          (fun a b => a.createdAt ≤ b.createdAt)) := by
  refine ⟨(C4_ordering store2 0 RatesQuery.none' "r1" [] (by decide)).1, ?_⟩
  exact (C4_ordering store2 0 RatesQuery.none' "r1"
    ((store2.comments.filter (fun c => c.rateId = "r1")).insertionSort
      (fun a b => a.createdAt ≤ b.createdAt)) (by decide)).2 (by decide)

/-- Characterization of a successful like: the like is appended (lowercased),
rates are untouched, and the endpoint reports the new per-rate like count. -/
theorem postLike_success (st : Store) (now : Nat) (nid rateId raw : String)
    (hu : normUser raw ≠ "")
    (hrate : st.rates.any (fun r => r.id = rateId) = true)
    (hnew : st.likes.any
        (fun l => decide (l.rateId = rateId ∧ jsToLower l.username = normUser raw)) = false) :
    (postLike st now nid rateId (some raw)).1.likes
        = st.likes ++ [{ rateId := rateId, username := normUser raw }]
    ∧ (postLike st now nid rateId (some raw)).1.rates = st.rates
    ∧ (postLike st now nid rateId (some raw)).2
        = .created (((st.likes ++ [({ rateId := rateId, username := normUser raw } : Like)]).filter
            (fun l => l.rateId = rateId)).length) := by
  unfold postLike
  simp only [normOpt, hrate, hnew, Bool.false_eq_true, not_true, if_neg hu, if_false, ite_false,
    not_false_iff, ite_true, if_true]
  cases hf : st.rates.find? (fun r => r.id = rateId) with
  | none => simp [hf]
  | some rate =>
    simp only [hf]
    by_cases hcond : normUser rate.raterHandle ≠ "" ∧ normUser rate.raterHandle ≠ normUser raw
    · simp [hcond]
    · simp [hcond]

/-- C5: for an existing rate and a username with no prior like, the first
`POST /api/rates/:id/like` succeeds (201) appending exactly one Like row with
the normalized username, a second identical POST answers 409 with the same
`likeCount` and leaves the entire store unchanged, and the at-most-one-like-
per-(rate, user) invariant is preserved. -/
theorem C5_like_idempotence (st : Store) (now1 now2 : Nat) (nid1 nid2 rateId raw : String)
    (hu : normUser raw ≠ "")
    (hrate : st.rates.any (fun r => r.id = rateId) = true)
    (hnew : ∀ l ∈ st.likes, ¬(l.rateId = rateId ∧ jsToLower l.username = normUser raw)) :
    ∃ n,
      (postLike st now1 nid1 rateId (some raw)).2 = .created n
      ∧ postLike (postLike st now1 nid1 rateId (some raw)).1 now2 nid2 rateId (some raw)
          = ((postLike st now1 nid1 rateId (some raw)).1, .conflict n)
      ∧ (postLike st now1 nid1 rateId (some raw)).1.likes
          = st.likes ++ [{ rateId := rateId, username := normUser raw }]
      ∧ (List.Pairwise (fun a b : Like =>
            ¬(a.rateId = b.rateId ∧ jsToLower a.username = jsToLower b.username)) st.likes →
          List.Pairwise (fun a b : Like =>
            ¬(a.rateId = b.rateId ∧ jsToLower a.username = jsToLower b.username))
            (postLike st now1 nid1 rateId (some raw)).1.likes) := by
  have hnew' : st.likes.any
      (fun l => decide (l.rateId = rateId ∧ jsToLower l.username = normUser raw)) = false := by
    simp only [List.any_eq_false, decide_eq_true_eq]
    exact hnew
  obtain ⟨hlikes, hrates, hres⟩ := postLike_success st now1 nid1 rateId raw hu hrate hnew'
  refine ⟨_, hres, ?_, hlikes, ?_⟩
  · have hrate2 : (postLike st now1 nid1 rateId (some raw)).1.rates.any
        (fun r => r.id = rateId) = true := by rw [hrates]; exact hrate
    have hdup : (postLike st now1 nid1 rateId (some raw)).1.likes.any
        (fun l => decide (l.rateId = rateId ∧ jsToLower l.username = normUser raw)) = true := by
      rw [hlikes]
      simp [jsToLower_normUser]
    conv_lhs => rw [postLike]
    simp only [normOpt, if_neg hu, hrate2, hdup, Bool.false_eq_true, not_true, if_false,
      ite_false, not_false_iff, ite_true, if_true]
    rw [hlikes]
  · intro hinv
    rw [hlikes]
    rw [List.pairwise_append]
    refine ⟨hinv, List.pairwise_singleton _ _, ?_⟩
    intro a ha b hb
    rw [List.mem_singleton] at hb
    subst hb
    simp only [jsToLower_normUser]
    exact hnew a ha

/-- Witness for C5 on `store2` with username `"Alice"`: first like 201 with
count 1, second like 409 with the same count and unchanged store. -/
theorem C5_like_idempotence_witness :
    (postLike store2 5 "n1" "r1" (some "Alice")).2 = .created 1
    ∧ postLike (postLike store2 5 "n1" "r1" (some "Alice")).1 6 "n2" "r1" (some "Alice")
        = ((postLike store2 5 "n1" "r1" (some "Alice")).1, .conflict 1) := by
  obtain ⟨n, h1, h2, h3, h4⟩ :=
    C5_like_idempotence store2 5 6 "n1" "n2" "r1" "Alice" (by decide) (by decide) (by decide)
  have hA : (postLike store2 5 "n1" "r1" (some "Alice")).2 = .created 1 := by decide
  have hn := h1.symm.trans hA
  injection hn with hn1
  subst hn1
  exact ⟨hA, h2⟩

/-- The second component of an `enumFrom` entry is a member of the list. -/
theorem snd_mem_of_mem_enumFrom {α : Type _} :
    ∀ (n : Nat) (l : List α) (q : Nat × α), q ∈ l.enumFrom n → q.2 ∈ l
  | _, [], _, h => absurd h (by simp)
  | n, a :: l, q, h => by
    rw [List.enumFrom_cons] at h
    rcases List.mem_cons.mp h with h | h
    · subst h; exact List.mem_cons_self _ _
    · exact List.mem_cons_of_mem _ (snd_mem_of_mem_enumFrom (n + 1) l q h)

/-- A pairwise relation is inherited by `enumFrom` on the second components. -/
theorem pairwise_enumFrom {α : Type _} {R : α → α → Prop} :
    ∀ (n : Nat) (l : List α), List.Pairwise R l →
      List.Pairwise (fun p q : Nat × α => R p.2 q.2) (l.enumFrom n)
  | _, [], _ => List.Pairwise.nil
  | n, a :: l, h => by
    rw [List.enumFrom_cons, List.pairwise_cons]
    rw [List.pairwise_cons] at h
    refine ⟨?_, pairwise_enumFrom (n + 1) l h.2⟩
    intro q hq
    exact h.1 q.2 (snd_mem_of_mem_enumFrom (n + 1) l q hq)

/-- C6: `GET /api/rates/trending` groups rates by lowercased game name with
first-seen display casing, counts per key, sorts by count descending, keeps at
most the top 5 and attaches 1-based ranks. Concretely, for games A (3 rates),
B (5 rates, in mixed casing with `"B"` seen first) and C (1 rate) the result
is rank 1 = B (5), rank 2 = A (3), rank 3 = C (1); in general the result has
at most 5 entries, the i-th entry carries rank `i + 1`, and counts are
non-increasing. -/
theorem C6_trending (st : Store) (now : Nat) :
    trendingApi store6 1000 =
      [{ rank := 1, gameName := "B", count := 5 },
       { rank := 2, gameName := "A", count := 3 },
       { rank := 3, gameName := "C", count := 1 }]
    ∧ (trendingApi st now).length ≤ 5
    ∧ (∀ i, (h : i < (trendingApi st now).length) → ((trendingApi st now)[i]).rank = i + 1)
    ∧ List.Pairwise (fun a b : TrendEntry => b.count ≤ a.count) (trendingApi st now) := by
  refine ⟨by decide, ?_, ?_, ?_⟩
  · unfold trendingApi
    simp only [List.length_map, List.enum_length]
    exact (List.length_take_le _ _)
  · intro i h
    unfold trendingApi
    simp only [List.getElem_map, List.getElem_enum]
  · haveI : IsTotal (String × String × Nat) (fun a b => b.2.2 ≤ a.2.2) :=
      ⟨fun a b => Nat.le_total b.2.2 a.2.2⟩
    haveI : IsTrans (String × String × Nat) (fun a b => b.2.2 ≤ a.2.2) :=
      ⟨fun _ _ _ hab hbc => Nat.le_trans hbc hab⟩
    have hs : List.Pairwise (fun a b : String × String × Nat => b.2.2 ≤ a.2.2)
        ((st.rates.foldl (trendingFold now) []).insertionSort (fun a b => b.2.2 ≤ a.2.2)) :=
      List.sorted_insertionSort _ _
    have htake := hs.sublist (List.take_sublist 5 _)
    have henum := pairwise_enumFrom 0 _ htake
    unfold trendingApi
    rw [List.pairwise_map]
    exact henum

/-- Witness for C6: the concrete trending output of `store6` has at most 5
entries and its first entry has rank 1. -/
theorem C6_trending_witness :
    (trendingApi store6 1000).length ≤ 5
    ∧ ((h : 0 < (trendingApi store6 1000).length) → ((trendingApi store6 1000)[0]).rank = 1) := by
  exact ⟨(C6_trending store6 1000).2.1, fun h => (C6_trending store6 1000).2.2.1 0 h⟩

/-- A self-like never touches the notifications array. -/
theorem postLike_self_notifications (st : Store) (now : Nat) (nid rateId raw : String)
    (hself : ∀ r, st.rates.find? (fun x => x.id = rateId) = some r →
        normUser r.raterHandle = normUser raw) :
    (postLike st now nid rateId (some raw)).1.notifications = st.notifications := by
  by_cases h1 : normOpt (some raw) = ""
  · simp [postLike, h1]
  · by_cases h2 : st.rates.any (fun r => r.id = rateId) = true
    · by_cases h3 : st.likes.any
          (fun l => decide (l.rateId = rateId ∧ jsToLower l.username = normOpt (some raw))) = true
      · have h3' : ∃ x ∈ st.likes, x.rateId = rateId ∧ jsToLower x.username = normOpt (some raw) := by
          simpa using h3
        simp [postLike, h1, h2, h3']
      · simp only [postLike, h1, h2, h3, Bool.false_eq_true, not_true, not_false_iff,
          if_false, ite_false, ite_true, if_true]
        cases hf : st.rates.find? (fun x => x.id = rateId) with
        | none => simp [hf]
        | some rate =>
          have hown := hself rate hf
          simp [hf, hown, normOpt]
    · simp [postLike, h1, h2]

/-- A comment never touches the notifications array: the crash at the
undefined `saveComments()` happens right after the push, before the
notification block, so in particular a self-comment appends no notification. -/
theorem postComment_self_notifications (st : Store) (now : Nat) (cid nid rateId raw : String)
    (dn bodyOpt : Option String) :
    (postComment st now cid nid rateId (some raw) dn bodyOpt).1.notifications
        = st.notifications := by
  by_cases h1 : normOpt (some raw) = ""
  · simp [postComment, h1]
  · by_cases h0 : jsTrimOpt bodyOpt = ""
    · simp [postComment, h1, h0]
    · by_cases h2 : st.rates.any (fun r => r.id = rateId) = true
      · simp [postComment, h1, h0, h2]
      · simp [postComment, h1, h0, h2]

/-- C7: no like or comment whose actor equals the target rate's author
(case-insensitively) ever appends a notification: after any such call the
notifications collection — and therefore every user's notification list and
unread count — is exactly what it was before. -/
theorem C7_no_self_notification (st : Store) (now1 now2 : Nat) (nid1 cid nid2 : String)
    (rateId raw : String) (dn bodyOpt : Option String) (who : String)
    (hself : ∀ r, st.rates.find? (fun x => x.id = rateId) = some r →
        normUser r.raterHandle = normUser raw) :
    (postLike st now1 nid1 rateId (some raw)).1.notifications = st.notifications
    ∧ (postComment st now2 cid nid2 rateId (some raw) dn bodyOpt).1.notifications
        = st.notifications
    ∧ notificationsFor (postLike st now1 nid1 rateId (some raw)).1 who
        = notificationsFor st who
    ∧ unreadCountFor (postLike st now1 nid1 rateId (some raw)).1 who = unreadCountFor st who
    ∧ notificationsFor (postComment st now2 cid nid2 rateId (some raw) dn bodyOpt).1 who
        = notificationsFor st who
    ∧ unreadCountFor (postComment st now2 cid nid2 rateId (some raw) dn bodyOpt).1 who
        = unreadCountFor st who := by
  have hl := postLike_self_notifications st now1 nid1 rateId raw hself
  have hc := postComment_self_notifications st now2 cid nid2 rateId raw dn bodyOpt
  refine ⟨hl, hc, ?_, ?_, ?_, ?_⟩
  · unfold notificationsFor
    rw [hl]
  · unfold unreadCountFor
    rw [hl]
  · unfold notificationsFor
    rw [hc]
  · unfold unreadCountFor
    rw [hc]

/-- Witness for C7: `bob` liking and commenting on his own rate in `store2`
leaves the notifications collection empty. -/
theorem C7_no_self_notification_witness :
    (postLike store2 5 "n1" "r1" (some "Bob ")).1.notifications = store2.notifications
    ∧ (postComment store2 6 "c1" "n2" "r1" (some "Bob ") (some "Bob") (some "mine")).1.notifications
        = store2.notifications := by
  have h := C7_no_self_notification store2 5 6 "n1" "c1" "n2" "r1" "Bob "
    (some "Bob") (some "mine") "bob" (by decide)
  exact ⟨h.1, h.2.1⟩

/-- C9 (code bug): in flat-file mode a fully authorized delete of an existing
rate performs the entire cascade in memory — the rate and every like,
bookmark, comment, report and notification carrying its id are removed, and
every other record and the unrelated collections (users, follows, messages)
are untouched — but the handler then calls the undefined `saveComments()`,
throws a `ReferenceError`, and answers 500 instead of the success that the
claim (and the spec, whose intent the handler's own unreachable
`{ success: true }` response line shares) describes. -/
theorem C9_admin_delete_bug (st : Store) (token expected rateId : String)
    (hexp : jsTrim expected ≠ "") (htok : jsTrim token = jsTrim expected)
    (hid : rateId ≠ "")
    (hrate : st.rates.any (fun r => r.id = rateId) = true) :
    (adminDeleteRate st token expected rateId).2 = .serverError
    ∧ (adminDeleteRate st token expected rateId).2 ≠ .success
    ∧ (∀ r : Rate, r ∈ (adminDeleteRate st token expected rateId).1.rates ↔
        r ∈ st.rates ∧ r.id ≠ rateId)
    ∧ (∀ l : Like, l ∈ (adminDeleteRate st token expected rateId).1.likes ↔
        l ∈ st.likes ∧ l.rateId ≠ rateId)
    ∧ (∀ b : Bookmark, b ∈ (adminDeleteRate st token expected rateId).1.bookmarks ↔
        b ∈ st.bookmarks ∧ b.rateId ≠ rateId)
    ∧ (∀ c : Comment, c ∈ (adminDeleteRate st token expected rateId).1.comments ↔
        c ∈ st.comments ∧ c.rateId ≠ rateId)
    ∧ (∀ rp : Report, rp ∈ (adminDeleteRate st token expected rateId).1.reports ↔
        rp ∈ st.reports ∧ rp.rateId ≠ rateId)
    ∧ (∀ n : Notification, n ∈ (adminDeleteRate st token expected rateId).1.notifications ↔
        n ∈ st.notifications ∧ n.rateId ≠ some rateId)
    ∧ (adminDeleteRate st token expected rateId).1.follows = st.follows
    ∧ (adminDeleteRate st token expected rateId).1.messages = st.messages
    ∧ (adminDeleteRate st token expected rateId).1.users = st.users := by
  have hcond : ¬(jsTrim expected = "" ∨ jsTrim token ≠ jsTrim expected) := by
    push_neg
    exact ⟨hexp, htok⟩
  unfold adminDeleteRate
  rw [if_neg hcond, if_neg hid, if_neg (by simp [hrate])]
  refine ⟨rfl, ?_, ?_, ?_, ?_, ?_, ?_, ?_, rfl, rfl, rfl⟩
  · intro h
    simp at h
  all_goals intro x
  all_goals simp [List.mem_filter]

/-- Witness for C9 on `store9`: deleting `r1` answers the 500, not success,
yet has cascaded in memory — the `r2` like survives, the `r1` like is gone. -/
theorem C9_admin_delete_bug_witness :
    (adminDeleteRate store9 "secret" "secret" "r1").2 = .serverError
    ∧ (adminDeleteRate store9 "secret" "secret" "r1").2 ≠ .success
    ∧ (({ rateId := "r2", username := "alice" } : Like)
          ∈ (adminDeleteRate store9 "secret" "secret" "r1").1.likes
        ↔ ({ rateId := "r2", username := "alice" } : Like) ∈ store9.likes ∧ "r2" ≠ "r1")
    ∧ (({ rateId := "r1", username := "alice" } : Like)
          ∈ (adminDeleteRate store9 "secret" "secret" "r1").1.likes
        ↔ ({ rateId := "r1", username := "alice" } : Like) ∈ store9.likes ∧ "r1" ≠ "r1") := by
  have h := C9_admin_delete_bug store9 "secret" "secret" "r1"
    (by decide) (by decide) (by decide) (by decide)
  exact ⟨h.1, h.2.1, h.2.2.2.1 _, h.2.2.2.1 _⟩

/-- C10: `POST /api/messages` rejects self-messaging — whenever the trimmed,
lowercased sender equals the trimmed, lowercased receiver the request returns
a 400 and the messages collection is unchanged — and every message the
endpoint ever stores has sender distinct from receiver. -/
theorem C10_no_self_message (st : Store) (now : Nat) (mid : String)
    (s r b : Option String) :
    (normOpt s = normOpt r →
        (∃ msg, (postMessage st now mid s r b).2 = .badRequest msg)
        ∧ (postMessage st now mid s r b).1.messages = st.messages)
    ∧ (∀ m ∈ (postMessage st now mid s r b).1.messages,
        m ∈ st.messages ∨ m.senderUsername ≠ m.receiverUsername) := by
  constructor
  · intro heq
    simp only [postMessage]
    by_cases hs0 : normOpt s = "" ∨ normOpt r = ""
    · rw [if_pos hs0]
      exact ⟨⟨_, rfl⟩, rfl⟩
    · rw [if_neg hs0]
      by_cases h2 : jsTrimOpt b = ""
      · rw [if_pos h2]
        exact ⟨⟨_, rfl⟩, rfl⟩
      · rw [if_neg h2, if_pos heq]
        exact ⟨⟨_, rfl⟩, rfl⟩
  · intro m hm
    simp only [postMessage] at hm
    by_cases hs0 : normOpt s = "" ∨ normOpt r = ""
    · rw [if_pos hs0] at hm
      exact Or.inl hm
    · rw [if_neg hs0] at hm
      by_cases h2 : jsTrimOpt b = ""
      · rw [if_pos h2] at hm
        exact Or.inl hm
      · rw [if_neg h2] at hm
        by_cases h3 : normOpt s = normOpt r
        · rw [if_pos h3] at hm
          exact Or.inl hm
        · rw [if_neg h3] at hm
          rcases List.mem_append.mp hm with h | h
          · exact Or.inl h
          · rw [List.mem_singleton] at h
            subst h
            exact Or.inr h3

/-- Witness for C10: sending a message from `" Bob"` to `"bob "` (equal after
normalization) is rejected and stores nothing. -/
theorem C10_no_self_message_witness :
    (∃ msg, (postMessage Store.empty 3 "m1" (some " Bob") (some "bob ") (some "hi")).2
        = .badRequest msg)
    ∧ (postMessage Store.empty 3 "m1" (some " Bob") (some "bob ") (some "hi")).1.messages
        = Store.empty.messages := by
  exact (C10_no_self_message Store.empty 3 "m1" (some " Bob") (some "bob ") (some "hi")).1
    (by decide)

end Gameratez
